import Mathlib

/- Shallow embedding of the appointment token-assignment core of the
HamroSwasthya backend (src/main.py together with src/database.py and
src/schemas.py).

The modelled surface is the three endpoints that form the core:
`POST /bookings` (`book_appointment`, src/main.py lines 235-258),
`POST /token/update` (`update_token`, lines 267-275) and
`GET /token/status` (`token_status`, lines 278-284).

The MongoDB `tokenfeed` collection is only ever accessed through the
filter `{"_key": feed_name}` with upsert writes, so it behaves as a map
from the `_key` string to a document; it is embedded as a function
`String → Option Feed`.  A Mongo `$set` upsert creates the document from
the listed fields when absent and overwrites only the listed fields when
present; both writers are embedded field by field below.  The
`created_at` / `updated_at` timestamps stamped by
`database.create_document` are not modelled: no claim mentions them. -/

namespace HamroSwasthya

/-- Hexadecimal digit, as accepted when decoding an ObjectId string. -/
def isHexChar (c : Char) : Bool :=
  c.isDigit || ('a' ≤ c && c ≤ 'f') || ('A' ≤ c && c ≤ 'F')

/-- Validity of a doctor id string: `ObjectId(b.doctor_id)`
(src/main.py lines 239-242) succeeds on a string exactly when it is 24
hexadecimal characters — the store's native identifier format.  The
`bson` library is an external collaborator of the repository; its
documented string format for `ObjectId` is embedded here. -/
def isValidObjectId (s : String) : Bool :=
  s.data.length == 24 && s.data.all isHexChar

/-- Zero-padding to two digits, as `%m` / `%d` in `strftime`. -/
def pad2 (n : Nat) : String :=
  if n < 10 then "0" ++ toString n else toString n

/-- Zero-padding to four digits, as `%Y` in `strftime` for the
four-digit years all dates in scope have. -/
def pad4 (n : Nat) : String :=
  if n < 10 then "000" ++ toString n
  else if n < 100 then "00" ++ toString n
  else if n < 1000 then "0" ++ toString n
  else toString n

/-- A Python `datetime` value as pydantic parses the `date` field of a
`Booking` (src/schemas.py line 127): calendar components plus a
time-of-day part.  Seconds and finer resolution behave exactly like
hours and minutes for every claim (the sequencing key ignores them), so
hour and minute stand for the whole time-of-day. -/
structure PyDatetime where
  year : Nat
  month : Nat
  day : Nat
  hour : Nat := 0
  minute : Nat := 0
deriving DecidableEq, Repr

/-- `b.date.strftime('%Y-%m-%d')` (src/main.py line 244): the calendar
date component, zero-padded, with the time-of-day dropped. -/
def strftimeYmd (d : PyDatetime) : String :=
  pad4 d.year ++ "-" ++ pad2 d.month ++ "-" ++ pad2 d.day

/-- A document of the `tokenfeed` collection, minus its `_key` (held as
the store key).  `last_token` is written only by `book_appointment` and
`current_token` only by `update_token`; either field can be absent. -/
structure Feed where
  doctor_id : String
  date : String
  last_token : Option Nat := none
  current_token : Option Int := none
deriving DecidableEq, Repr

/-- The `tokenfeed` collection, keyed by the `_key` field. -/
def FeedStore : Type := String → Option Feed

/-- The request body of `POST /bookings` (`Booking`, src/schemas.py
lines 124-129): `token` is optional client input and `status` defaults
to `"booked"`. -/
structure Booking where
  user_id : String
  doctor_id : String
  date : PyDatetime
  token : Option Int := none
  status : String := "booked"
deriving DecidableEq, Repr

/-- A persisted document of the `booking` collection: the dumped request
body with the `token` field overwritten by the allocator
(src/main.py lines 255-257). -/
structure BookingDoc where
  user_id : String
  doctor_id : String
  date : PyDatetime
  token : Nat
  status : String
deriving DecidableEq, Repr

/-- The store state the core touches: the `tokenfeed` map and the
`booking` collection (in insertion order). -/
structure DB where
  tokenfeed : FeedStore
  bookings : List BookingDoc

/-- A store with no feed and no booking. -/
def emptyDB : DB :=
  { tokenfeed := fun _ => none, bookings := [] }

/-- `f"tokenfeed_{doctor_id}_{date_key}"` (src/main.py line 246). -/
def feedName (doctorId dateKey : String) : String :=
  "tokenfeed_" ++ doctorId ++ "_" ++ dateKey

/-- `next_token = (feed.get("last_token", 0) + 1) if feed else 1`
(src/main.py lines 247-248): the read half of the allocation. -/
def readNext (s : FeedStore) (key : String) : Nat :=
  match s key with
  | some f => f.last_token.getD 0 + 1
  | none => 1

/-- The `update_one` upsert of `book_appointment` (src/main.py lines
249-253): `$set` of `_key`, `doctor_id`, `date` and `last_token`, which
preserves an existing `current_token` and leaves it absent on insert. -/
def writeBookFeed (s : FeedStore) (key doctorId dateKey : String) (n : Nat) : FeedStore :=
  fun k =>
    if k = key then
      some { doctor_id := doctorId, date := dateKey, last_token := some n,
             current_token := (s key).bind Feed.current_token }
    else s k

/-- The `update_one` upsert of `update_token` (src/main.py lines
270-274): `$set` of `_key`, `doctor_id`, `date` and `current_token`,
which preserves an existing `last_token` and leaves it absent on
insert. -/
def writeCurrentFeed (s : FeedStore) (key doctorId dateStr : String) (v : Int) : FeedStore :=
  fun k =>
    if k = key then
      some { doctor_id := doctorId, date := dateStr,
             last_token := (s key).bind Feed.last_token, current_token := some v }
    else s k

/-- An `HTTPException(status, detail)`. -/
structure HttpError where
  status : Nat
  detail : String
deriving DecidableEq, Repr

/-- The success response of `POST /bookings`: `{"id": _id, "token":
next_token}`; the opaque inserted id is embedded as the index of the new
document in the `booking` collection. -/
structure BookResult where
  id : Nat
  token : Nat
deriving DecidableEq, Repr

/-- `book_appointment` (src/main.py lines 235-258) with a fault switch:
`insertFails = true` injects a store failure in
`create_document("booking", data)` (the insert raises after the feed
upsert has already been applied); `insertFails = false` is the plain
code path.  The doctor-id format check runs first; on failure nothing is
written and the state comes back unchanged with a 400 error. -/
def bookAppointmentF (db : DB) (b : Booking) (insertFails : Bool) :
    DB × Except HttpError BookResult :=
  if isValidObjectId b.doctor_id then
    let dk := strftimeYmd b.date
    let key := feedName b.doctor_id dk
    let n := readNext db.tokenfeed key
    let feeds' := writeBookFeed db.tokenfeed key b.doctor_id dk n
    if insertFails then
      ({ tokenfeed := feeds', bookings := db.bookings }, .error ⟨500, "insert failed"⟩)
    else
      ({ tokenfeed := feeds',
         bookings := db.bookings ++ [⟨b.user_id, b.doctor_id, b.date, n, b.status⟩] },
       .ok ⟨db.bookings.length, n⟩)
  else
    (db, .error ⟨400, "Invalid doctor id"⟩)

/-- `book_appointment` on the fault-free path. -/
def bookAppointment (db : DB) (b : Booking) : DB × Except HttpError BookResult :=
  bookAppointmentF db b false

/-- The request body of `POST /token/update` (`TokenUpdate`,
src/main.py lines 261-264). -/
structure TokenUpdate where
  doctor_id : String
  date : String
  current_token : Int
deriving DecidableEq, Repr

/-- `update_token` (src/main.py lines 267-275): an unconditional upsert
of `current_token`; no validation of any kind, response `"ok"`. -/
def updateToken (db : DB) (t : TokenUpdate) : DB × String :=
  ({ db with
      tokenfeed := writeCurrentFeed db.tokenfeed (feedName t.doctor_id t.date)
        t.doctor_id t.date t.current_token },
   "ok")

/-- `token_status` (src/main.py lines 278-284): a pure read returning
HTTP 200 with the feed document, or the empty object (embedded as
`none`) when no feed exists. -/
def tokenStatus (db : DB) (doctorId dateStr : String) : Nat × Option Feed :=
  (200, db.tokenfeed (feedName doctorId dateStr))

/-- Sequential processing of a list of `POST /bookings` requests, each
one completing before the next starts. -/
def bookSeq (db : DB) : List Booking → DB × List (Except HttpError BookResult)
  | [] => (db, [])
  | b :: bs =>
    let r := bookAppointment db b
    let rest := bookSeq r.1 bs
    (rest.1, r.2 :: rest.2)

/-- The token component of each response of a run. -/
def tokensOf (rs : List (Except HttpError BookResult)) : List (Except HttpError Nat) :=
  rs.map (Except.map BookResult.token)

/-- The local state of one in-flight allocation inside
`book_appointment`: about to run the `find_one` (line 247), about to run
the `update_one` with the computed `next_token` (lines 249-253), or
finished having returned `ret`. -/
inductive AllocPhase where
  | toRead : AllocPhase
  | toWrite (next : Nat) : AllocPhase
  | done (ret : Nat) : AllocPhase
deriving DecidableEq, Repr

/-- A configuration of concurrent allocations on one (doctor, date) key:
the shared `tokenfeed` store and each request's local phase. -/
structure AllocConfig where
  feeds : FeedStore
  threads : List AllocPhase

/-- One atomic step of request `i`: its pending `find_one` or its
pending `update_one`, exactly the two store round trips of
`book_appointment`'s allocation.  Anything else is a no-op. -/
def allocStep (doctorId dateKey : String) (c : AllocConfig) (i : Nat) : AllocConfig :=
  match c.threads[i]? with
  | some .toRead =>
    { c with
        threads := c.threads.set i (.toWrite (readNext c.feeds (feedName doctorId dateKey))) }
  | some (.toWrite n) =>
    { feeds := writeBookFeed c.feeds (feedName doctorId dateKey) doctorId dateKey n,
      threads := c.threads.set i (.done n) }
  | _ => c

/-- Run a schedule: the interleaving of the concurrent allocations is
the order in which request indices appear in the schedule. -/
def allocRun (doctorId dateKey : String) (c : AllocConfig) : List Nat → AllocConfig
  | [] => c
  | i :: sched => allocRun doctorId dateKey (allocStep doctorId dateKey c i) sched

/-- A doctor id in the store's native format (24 hexadecimal
characters), used to evaluate the operations on concrete data. -/
def dOk : String := "0123456789abcdef01234567"

/-- A concrete booking for `dOk` on 2024-06-01, 09:00. -/
def bOk1 : Booking := ⟨"u1", dOk, ⟨2024, 6, 1, 9, 0⟩, none, "booked"⟩

/-- A concrete booking for `dOk` on 2024-06-01 at a different
time-of-day, 14:30. -/
def bOk2 : Booking := ⟨"u2", dOk, ⟨2024, 6, 1, 14, 30⟩, none, "booked"⟩

/-- A concrete booking for `dOk` on 2024-06-01 whose body supplies a
client-chosen token value 99. -/
def bOk3 : Booking := ⟨"u3", dOk, ⟨2024, 6, 1, 9, 0⟩, some 99, "booked"⟩

/-- A concrete booking for `dOk` on the next calendar date,
2024-06-02. -/
def bOkD2 : Booking := ⟨"u1", dOk, ⟨2024, 6, 2, 9, 0⟩, none, "booked"⟩

/-- A booking whose doctor id "D1" is not a well-formed ObjectId. -/
def bBad : Booking := ⟨"u1", "D1", ⟨2024, 6, 1, 9, 0⟩, none, "booked"⟩

/-- A token update whose doctor id "D1" is not a well-formed
ObjectId. -/
def tBad : TokenUpdate := ⟨"D1", "2024-06-01", 5⟩

/-- A second doctor id in the store's native format, distinct from
`dOk`. -/
def dOk2 : String := "fedcba9876543210fedcba98"

/-- A concrete booking for the second doctor `dOk2` on the same
calendar date as `bOk1`, 2024-06-01. -/
def bDoc2 : Booking := ⟨"u4", dOk2, ⟨2024, 6, 1, 11, 0⟩, none, "booked"⟩


/- ------------------------------------------------------------------ -/
/- Supporting lemmas                                                  -/
/- ------------------------------------------------------------------ -/

theorem str_eq_of_data {s t : String} (h : s.data = t.data) : s = t := by
  cases s; cases t; exact congrArg String.mk h

theorem string_append_left_cancel {p s t : String} (h : p ++ s = p ++ t) : s = t := by
  apply str_eq_of_data
  have hd := congrArg String.data h
  simp only [String.data_append] at hd
  exact List.append_cancel_left hd

theorem valid_length {s : String} (h : isValidObjectId s = true) : s.data.length = 24 := by
  simp [isValidObjectId, Bool.and_eq_true] at h
  exact h.1

theorem feedName_inj {d1 d2 k1 k2 : String}
    (h1 : isValidObjectId d1 = true) (h2 : isValidObjectId d2 = true) :
    feedName d1 k1 = feedName d2 k2 ↔ d1 = d2 ∧ k1 = k2 := by
  constructor
  · intro h
    have hd := congrArg String.data h
    simp only [feedName, String.data_append, List.append_assoc] at hd
    have hd2 := List.append_cancel_left hd
    have hlen : d1.data.length = d2.data.length := by
      rw [valid_length h1, valid_length h2]
    obtain ⟨hd3, hk⟩ := List.append_inj hd2 hlen
    have hk2 := List.append_cancel_left hk
    exact ⟨str_eq_of_data hd3, str_eq_of_data hk2⟩
  · rintro ⟨rfl, rfl⟩
    rfl

theorem feedName_right_inj {d k1 k2 : String} (h : feedName d k1 = feedName d k2) :
    k1 = k2 := by
  unfold feedName at h
  exact string_append_left_cancel h


theorem readNext_writeBookFeed (s : FeedStore) (key dId dk : String) (n : Nat) :
    readNext (writeBookFeed s key dId dk n) key = n + 1 := by
  simp [readNext, writeBookFeed]

theorem bookAppointment_feeds (db : DB) (b : Booking)
    (h : isValidObjectId b.doctor_id = true) :
    (bookAppointment db b).1.tokenfeed
      = writeBookFeed db.tokenfeed (feedName b.doctor_id (strftimeYmd b.date))
          b.doctor_id (strftimeYmd b.date)
          (readNext db.tokenfeed (feedName b.doctor_id (strftimeYmd b.date))) := by
  simp [bookAppointment, bookAppointmentF, h]

theorem bookAppointment_bookings (db : DB) (b : Booking)
    (h : isValidObjectId b.doctor_id = true) :
    (bookAppointment db b).1.bookings
      = db.bookings ++ [⟨b.user_id, b.doctor_id, b.date,
          readNext db.tokenfeed (feedName b.doctor_id (strftimeYmd b.date)), b.status⟩] := by
  simp [bookAppointment, bookAppointmentF, h]

theorem bookAppointment_resp (db : DB) (b : Booking)
    (h : isValidObjectId b.doctor_id = true) :
    (bookAppointment db b).2
      = .ok ⟨db.bookings.length,
          readNext db.tokenfeed (feedName b.doctor_id (strftimeYmd b.date))⟩ := by
  simp [bookAppointment, bookAppointmentF, h]

theorem bookSeq_cons (db : DB) (b : Booking) (bs : List Booking) :
    bookSeq db (b :: bs)
      = ((bookSeq (bookAppointment db b).1 bs).1,
         (bookAppointment db b).2 :: (bookSeq (bookAppointment db b).1 bs).2) := rfl

theorem bookSeq_tokens (d dk : String) (hd : isValidObjectId d = true) :
    ∀ (bs : List Booking) (db : DB),
      (∀ b ∈ bs, b.doctor_id = d ∧ strftimeYmd b.date = dk) →
      tokensOf (bookSeq db bs).2
          = (List.range' (readNext db.tokenfeed (feedName d dk)) bs.length).map Except.ok
        ∧ readNext (bookSeq db bs).1.tokenfeed (feedName d dk)
          = readNext db.tokenfeed (feedName d dk) + bs.length := by
  intro bs
  induction bs with
  | nil => intro db _; simp [bookSeq, tokensOf]
  | cons b bs ih =>
    intro db hall
    obtain ⟨hbd, hbk⟩ := hall b (List.mem_cons_self _ _)
    have hrest := fun b hb => hall b (List.mem_cons_of_mem _ hb)
    have hvb : isValidObjectId b.doctor_id = true := hbd ▸ hd
    have hfeeds := bookAppointment_feeds db b hvb
    rw [hbd, hbk] at hfeeds
    have hresp := bookAppointment_resp db b hvb
    rw [hbd, hbk] at hresp
    obtain ⟨ih1, ih2⟩ := ih (bookAppointment db b).1 hrest
    rw [hfeeds, readNext_writeBookFeed] at ih1 ih2
    rw [bookSeq_cons]
    constructor
    · show Except.map BookResult.token (bookAppointment db b).2
          :: tokensOf (bookSeq (bookAppointment db b).1 bs).2 = _
      rw [hresp, ih1]
      rfl
    · show readNext (bookSeq (bookAppointment db b).1 bs).1.tokenfeed (feedName d dk) = _
      rw [ih2]
      simp [List.length_cons]
      omega


/- ------------------------------------------------------------------ -/
/- Claims                                                             -/
/- ------------------------------------------------------------------ -/
/-- C1: sequential token allocation for one (doctor, date) key: from a
state with no feed for the key, N sequential bookings return exactly the
tokens 1, 2, ..., N in call order, the first one creates the feed with
last_token = 1 and returns 1, and after the run the next token to be
issued is N + 1. -/
theorem C1_sequential_tokens (d dk : String) (bs : List Booking) (db : DB)
    (hd : isValidObjectId d = true)
    (hbs : ∀ b ∈ bs, b.doctor_id = d ∧ strftimeYmd b.date = dk)
    (h0 : db.tokenfeed (feedName d dk) = none) :
    tokensOf (bookSeq db bs).2 = (List.range' 1 bs.length).map Except.ok
    ∧ readNext (bookSeq db bs).1.tokenfeed (feedName d dk) = bs.length + 1
    ∧ ∀ b : Booking, b.doctor_id = d → strftimeYmd b.date = dk →
        (bookAppointment db b).2 = .ok ⟨db.bookings.length, 1⟩
        ∧ (bookAppointment db b).1.tokenfeed (feedName d dk)
            = some { doctor_id := d, date := dk, last_token := some 1,
                     current_token := none } := by
  have hr1 : readNext db.tokenfeed (feedName d dk) = 1 := by
    simp [readNext, h0]
  obtain ⟨h1, h2⟩ := bookSeq_tokens d dk hd bs db hbs
  rw [hr1] at h1 h2
  refine ⟨h1, by omega, ?_⟩
  intro b hbd hbk
  have hvb : isValidObjectId b.doctor_id = true := hbd ▸ hd
  have hresp := bookAppointment_resp db b hvb
  have hfeeds := bookAppointment_feeds db b hvb
  rw [hbd, hbk] at hresp hfeeds
  rw [hr1] at hresp hfeeds
  refine ⟨hresp, ?_⟩
  rw [hfeeds]
  simp [writeBookFeed, h0]

theorem C1_witness :
    isValidObjectId dOk = true
    ∧ (∀ b ∈ [bOk1, bOk2, bOk3], b.doctor_id = dOk ∧ strftimeYmd b.date = "2024-06-01")
    ∧ emptyDB.tokenfeed (feedName dOk "2024-06-01") = none
    ∧ tokensOf (bookSeq emptyDB [bOk1, bOk2, bOk3]).2
        = (List.range' 1 3).map Except.ok :=
  ⟨by decide, by decide, rfl,
   (C1_sequential_tokens dOk "2024-06-01" [bOk1, bOk2, bOk3] emptyDB
      (by decide) (by decide) rfl).1⟩

/-- C2: the claim requires the read-then-write of last_token to be
atomic, every set of N concurrent allocations on one key returning
exactly the tokens 1..N.  The code (src/main.py lines 247-253) performs
a non-atomic find_one followed by update_one: interleaving two
allocations as read, read, write, write makes both return token 1 (a
duplicate), while the serialized schedule returns 1 then 2. -/
theorem C2_race_duplicate_tokens :
    (allocRun dOk "2024-06-01" ⟨emptyDB.tokenfeed, [.toRead, .toRead]⟩ [0, 1, 0, 1]).threads
      = [.done 1, .done 1]
    ∧ (allocRun dOk "2024-06-01" ⟨emptyDB.tokenfeed, [.toRead, .toRead]⟩ [0, 0, 1, 1]).threads
      = [.done 1, .done 2]
    ∧ [AllocPhase.done 1, AllocPhase.done 1] ≠ [AllocPhase.done 1, AllocPhase.done 2] :=
  ⟨rfl, rfl, by decide⟩

/-- C3: a POST /bookings request whose doctor_id is not a well-formed
ObjectId fails with HTTP 400 and the whole store (every tokenfeed and
the booking collection) is returned unchanged. -/
theorem C3_invalid_reference_atomicity (db : DB) (b : Booking)
    (h : isValidObjectId b.doctor_id = false) :
    bookAppointment db b = (db, .error ⟨400, "Invalid doctor id"⟩) := by
  simp [bookAppointment, bookAppointmentF, h]

theorem C3_witness :
    isValidObjectId bBad.doctor_id = false
    ∧ bookAppointment emptyDB bBad = (emptyDB, .error ⟨400, "Invalid doctor id"⟩) :=
  ⟨by decide, C3_invalid_reference_atomicity emptyDB bBad (by decide)⟩

/-- C4: the claim requires allocation to be all-or-nothing: on a
mid-request failure the feed must be unchanged.  The code writes the
feed before inserting the booking with no transaction: when the insert
fails after the feed upsert, last_token has moved from absent to 1 while
no booking was persisted, so the feed changed without a successful
booking. -/
theorem C4_mid_failure_partial_state :
    (bookAppointmentF emptyDB bOk1 true).2 = .error ⟨500, "insert failed"⟩
    ∧ emptyDB.tokenfeed (feedName dOk "2024-06-01") = none
    ∧ (bookAppointmentF emptyDB bOk1 true).1.tokenfeed (feedName dOk "2024-06-01")
        = some { doctor_id := dOk, date := "2024-06-01", last_token := some 1,
                 current_token := none }
    ∧ (bookAppointmentF emptyDB bOk1 true).1.bookings = [] := by
  refine ⟨rfl, rfl, ?_, rfl⟩
  decide


/-- C5: the sequencing key is exactly (doctor_id, calendar date): the
booking date is truncated to YYYY-MM-DD, so two bookings with the same
(doctor, date) pair but different times of day draw from one token
sequence, while any two distinct (doctor_id, date) keys — a different
doctor or a different calendar date — are fully independent: from
feed-absent states both allocations return token 1, and neither
allocation changes the other key's feed. -/
theorem C5_sequencing_key :
    (∀ (y mo dy h1 m1 h2 m2 : Nat),
        strftimeYmd ⟨y, mo, dy, h1, m1⟩ = strftimeYmd ⟨y, mo, dy, h2, m2⟩)
    ∧ (∀ (db : DB) (b1 b2 : Booking),
        isValidObjectId b1.doctor_id = true →
        b1.doctor_id = b2.doctor_id →
        strftimeYmd b1.date = strftimeYmd b2.date →
        db.tokenfeed (feedName b1.doctor_id (strftimeYmd b1.date)) = none →
        tokensOf (bookSeq db [b1, b2]).2 = [.ok 1, .ok 2])
    ∧ (∀ (db : DB) (b1 b2 : Booking),
        isValidObjectId b1.doctor_id = true →
        isValidObjectId b2.doctor_id = true →
        (b1.doctor_id ≠ b2.doctor_id ∨ strftimeYmd b1.date ≠ strftimeYmd b2.date) →
        db.tokenfeed (feedName b1.doctor_id (strftimeYmd b1.date)) = none →
        db.tokenfeed (feedName b2.doctor_id (strftimeYmd b2.date)) = none →
        tokensOf (bookSeq db [b1, b2]).2 = [.ok 1, .ok 1]
        ∧ (bookAppointment db b1).1.tokenfeed
            (feedName b2.doctor_id (strftimeYmd b2.date)) = none
        ∧ (bookSeq db [b1, b2]).1.tokenfeed (feedName b1.doctor_id (strftimeYmd b1.date))
            = (bookAppointment db b1).1.tokenfeed
                (feedName b1.doctor_id (strftimeYmd b1.date))) := by
  refine ⟨fun y mo dy h1 m1 h2 m2 => rfl, ?_, ?_⟩
  · intro db b1 b2 hv1 h12 hsame h0
    obtain ⟨h1, _⟩ := bookSeq_tokens b1.doctor_id (strftimeYmd b1.date) hv1 [b1, b2] db
      (by
        intro b hb
        simp only [List.mem_cons, List.not_mem_nil, or_false] at hb
        rcases hb with rfl | rfl
        · exact ⟨rfl, rfl⟩
        · exact ⟨h12.symm, hsame.symm⟩)
    have hr : readNext db.tokenfeed (feedName b1.doctor_id (strftimeYmd b1.date)) = 1 := by
      simp [readNext, h0]
    rw [hr] at h1
    rw [h1]
    rfl
  · intro db b1 b2 hv1 hv2 hne h01 h02
    have hkey : feedName b1.doctor_id (strftimeYmd b1.date)
        ≠ feedName b2.doctor_id (strftimeYmd b2.date) := by
      intro h
      obtain ⟨hdq, hkq⟩ := (feedName_inj hv1 hv2).mp h
      rcases hne with hne | hne
      · exact hne hdq
      · exact hne hkq
    have hfeeds1 := bookAppointment_feeds db b1 hv1
    have huntouched : (bookAppointment db b1).1.tokenfeed
        (feedName b2.doctor_id (strftimeYmd b2.date)) = none := by
      rw [hfeeds1]
      show (if feedName b2.doctor_id (strftimeYmd b2.date)
            = feedName b1.doctor_id (strftimeYmd b1.date) then _ else
        db.tokenfeed (feedName b2.doctor_id (strftimeYmd b2.date))) = none
      rw [if_neg (fun h => hkey h.symm)]
      exact h02
    have hr1 : readNext db.tokenfeed (feedName b1.doctor_id (strftimeYmd b1.date)) = 1 := by
      simp [readNext, h01]
    have hr2 : readNext (bookAppointment db b1).1.tokenfeed
        (feedName b2.doctor_id (strftimeYmd b2.date)) = 1 := by
      simp [readNext, huntouched]
    have hresp1 := bookAppointment_resp db b1 hv1
    rw [hr1] at hresp1
    have hresp2 := bookAppointment_resp (bookAppointment db b1).1 b2 hv2
    rw [hr2] at hresp2
    have hfeeds2 := bookAppointment_feeds (bookAppointment db b1).1 b2 hv2
    refine ⟨?_, huntouched, ?_⟩
    · show Except.map BookResult.token (bookAppointment db b1).2
          :: Except.map BookResult.token (bookAppointment (bookAppointment db b1).1 b2).2
          :: [] = _
      rw [hresp1, hresp2]
      rfl
    · show (bookAppointment (bookAppointment db b1).1 b2).1.tokenfeed
          (feedName b1.doctor_id (strftimeYmd b1.date)) = _
      rw [hfeeds2]
      show (if feedName b1.doctor_id (strftimeYmd b1.date)
            = feedName b2.doctor_id (strftimeYmd b2.date) then _ else
        (bookAppointment db b1).1.tokenfeed (feedName b1.doctor_id (strftimeYmd b1.date))) = _
      rw [if_neg hkey]

theorem C5_witness :
    isValidObjectId bOk1.doctor_id = true
    ∧ isValidObjectId bDoc2.doctor_id = true
    ∧ bOk1.doctor_id = bOk2.doctor_id
    ∧ strftimeYmd bOk1.date = strftimeYmd bOk2.date
    ∧ strftimeYmd bOk1.date ≠ strftimeYmd bOkD2.date
    ∧ bOk1.doctor_id ≠ bDoc2.doctor_id
    ∧ strftimeYmd bOk1.date = strftimeYmd bDoc2.date
    ∧ emptyDB.tokenfeed (feedName bOk1.doctor_id (strftimeYmd bOk1.date)) = none
    ∧ tokensOf (bookSeq emptyDB [bOk1, bOk2]).2 = [.ok 1, .ok 2]
    ∧ tokensOf (bookSeq emptyDB [bOk1, bOkD2]).2 = [.ok 1, .ok 1]
    ∧ tokensOf (bookSeq emptyDB [bOk1, bDoc2]).2 = [.ok 1, .ok 1]
    ∧ (bookAppointment emptyDB bOk1).1.tokenfeed
        (feedName bDoc2.doctor_id (strftimeYmd bDoc2.date)) = none :=
  ⟨by decide, by decide, rfl, rfl, by decide, by decide, rfl, rfl,
   C5_sequencing_key.2.1 emptyDB bOk1 bOk2 (by decide) rfl rfl rfl,
   (C5_sequencing_key.2.2 emptyDB bOk1 bOkD2 (by decide) (by decide)
      (Or.inr (by decide)) rfl rfl).1,
   (C5_sequencing_key.2.2 emptyDB bOk1 bDoc2 (by decide) (by decide)
      (Or.inl (by decide)) rfl rfl).1,
   (C5_sequencing_key.2.2 emptyDB bOk1 bDoc2 (by decide) (by decide)
      (Or.inl (by decide)) rfl rfl).2.1⟩

/-- C6: POST /token/update unconditionally overwrites current_token. -/
theorem C6_unconditional_current_token (db : DB) (t : TokenUpdate) :
    (updateToken db t).2 = "ok"
    ∧ tokenStatus (updateToken db t).1 t.doctor_id t.date
        = (200, some { doctor_id := t.doctor_id, date := t.date,
                       last_token := (db.tokenfeed
                         (feedName t.doctor_id t.date)).bind Feed.last_token,
                       current_token := some t.current_token }) := by
  refine ⟨rfl, ?_⟩
  show (200, writeCurrentFeed db.tokenfeed (feedName t.doctor_id t.date)
      t.doctor_id t.date t.current_token (feedName t.doctor_id t.date)) = _
  rw [writeCurrentFeed]
  simp

/-- C7: token round-trip. -/
theorem C7_token_round_trip (db : DB) (b : Booking)
    (hd : isValidObjectId b.doctor_id = true) :
    (bookAppointment db b).2
        = .ok ⟨db.bookings.length,
            readNext db.tokenfeed (feedName b.doctor_id (strftimeYmd b.date))⟩
    ∧ (bookAppointment db b).1.bookings
        = db.bookings ++ [⟨b.user_id, b.doctor_id, b.date,
            readNext db.tokenfeed (feedName b.doctor_id (strftimeYmd b.date)), b.status⟩]
    ∧ ((bookAppointment db b).1.tokenfeed
          (feedName b.doctor_id (strftimeYmd b.date))).bind Feed.last_token
        = some (readNext db.tokenfeed (feedName b.doctor_id (strftimeYmd b.date)))
    ∧ ∀ tok : Option Int, bookAppointment db { b with token := tok } = bookAppointment db b := by
  refine ⟨bookAppointment_resp db b hd, bookAppointment_bookings db b hd, ?_, fun tok => rfl⟩
  rw [bookAppointment_feeds db b hd]
  simp [writeBookFeed]

theorem C7_witness :
    isValidObjectId bOk3.doctor_id = true
    ∧ bOk3.token = some 99
    ∧ (bookAppointment emptyDB bOk3).2 = .ok ⟨0, 1⟩
    ∧ (bookAppointment emptyDB bOk3).1.bookings
        = [⟨"u3", dOk, ⟨2024, 6, 1, 9, 0⟩, 1, "booked"⟩]
    ∧ ((bookAppointment emptyDB bOk3).1.tokenfeed
          (feedName bOk3.doctor_id (strftimeYmd bOk3.date))).bind Feed.last_token = some 1 :=
  ⟨by decide, rfl,
   (C7_token_round_trip emptyDB bOk3 (by decide)).1,
   (C7_token_round_trip emptyDB bOk3 (by decide)).2.1,
   (C7_token_round_trip emptyDB bOk3 (by decide)).2.2.1⟩

/-- C8: empty status is not an error. -/
theorem C8_empty_status_ok (db : DB) (d k : String)
    (h : db.tokenfeed (feedName d k) = none) :
    tokenStatus db d k = (200, none)
    ∧ ∀ (db2 : DB) (d2 k2 : String), (tokenStatus db2 d2 k2).1 = 200 := by
  exact ⟨by simp [tokenStatus, h], fun _ _ _ => rfl⟩

theorem C8_witness :
    emptyDB.tokenfeed (feedName "D1" "2024-06-01") = none
    ∧ tokenStatus emptyDB "D1" "2024-06-01" = (200, none) :=
  ⟨rfl, (C8_empty_status_ok emptyDB "D1" "2024-06-01" rfl).1⟩

/-- C9 counterexample: POST /token/update does not validate its
doctor_id: with the malformed id "D1" it answers "ok" and creates the
feed instead of failing with a 4xx error before mutation. -/
theorem C9_counterexample :
    isValidObjectId tBad.doctor_id = false
    ∧ (updateToken emptyDB tBad).2 = "ok"
    ∧ (updateToken emptyDB tBad).1.tokenfeed (feedName "D1" "2024-06-01")
        = some { doctor_id := "D1", date := "2024-06-01", last_token := none,
                 current_token := some 5 } := by
  refine ⟨by decide, rfl, ?_⟩
  decide

/-- C9 amended: only POST /bookings rejects a malformed doctor_id (400,
no mutation); POST /token/update performs no format validation and
upserts the feed for any doctor_id string. -/
theorem C9_amended_validation_scope (db : DB) (b : Booking) (t : TokenUpdate)
    (hb : isValidObjectId b.doctor_id = false) :
    bookAppointment db b = (db, .error ⟨400, "Invalid doctor id"⟩)
    ∧ (updateToken db t).2 = "ok"
    ∧ (updateToken db t).1.tokenfeed (feedName t.doctor_id t.date) ≠ none := by
  refine ⟨by simp [bookAppointment, bookAppointmentF, hb], rfl, ?_⟩
  show (writeCurrentFeed db.tokenfeed (feedName t.doctor_id t.date)
      t.doctor_id t.date t.current_token) (feedName t.doctor_id t.date) ≠ none
  rw [writeCurrentFeed]
  simp

theorem C9_witness :
    isValidObjectId bBad.doctor_id = false
    ∧ bookAppointment emptyDB bBad = (emptyDB, .error ⟨400, "Invalid doctor id"⟩)
    ∧ (updateToken emptyDB tBad).2 = "ok"
    ∧ (updateToken emptyDB tBad).1.tokenfeed (feedName tBad.doctor_id tBad.date) ≠ none :=
  ⟨by decide,
   (C9_amended_validation_scope emptyDB bBad tBad (by decide)).1,
   (C9_amended_validation_scope emptyDB bBad tBad (by decide)).2.1,
   (C9_amended_validation_scope emptyDB bBad tBad (by decide)).2.2⟩

/-- C10: for doctor ids passing the format check, the composite feed key
identifies the (doctor_id, date key) pair uniquely. -/
theorem C10_feed_key_injective (d1 d2 k1 k2 : String)
    (h1 : isValidObjectId d1 = true) (h2 : isValidObjectId d2 = true) :
    feedName d1 k1 = feedName d2 k2 ↔ d1 = d2 ∧ k1 = k2 :=
  feedName_inj h1 h2

theorem C10_witness :
    isValidObjectId dOk = true
    ∧ (feedName dOk "2024-06-01" = feedName dOk "2024-06-02"
        ↔ dOk = dOk ∧ "2024-06-01" = "2024-06-02") :=
  ⟨by decide, C10_feed_key_injective dOk dOk "2024-06-01" "2024-06-02" (by decide) (by decide)⟩


end HamroSwasthya
